import Mathlib

/-!
Shallow embedding of the `rs-filter` Kalman filter
(`src/filters/kalman-filter/src/filter.rs` with the type aliases of
`src/filters/kalman-filter/src/alias.rs`).

The Rust code is generic over compile-time dimensions `TC` (state), `MR`
(measurement) and `BR` (control) and works on `f64` vectors and matrices
from `nalgebra`.  We embed the scalars as `ℚ` (exact arithmetic), vectors
`SVector<f64, n>` as `Fin n → ℚ` and matrices `SMatrix<f64, r, c>` as
`Matrix (Fin r) (Fin c) ℚ`.  `Result<T, TransitionError>` becomes
`Except TransitionError T`.  Every definition mirrors the Rust source line
by line; `step` takes and returns the filter record to model `&mut self`.
-/

namespace RsFilter

/-- `SVector<f64, n>` from `alias.rs`. -/
abbrev Vec (n : ℕ) := Fin n → ℚ

/-- `SMatrix<f64, r, c>` from `alias.rs`. -/
abbrev Mat (r c : ℕ) := Matrix (Fin r) (Fin c) ℚ

/-- `pub struct TransitionError {}` (filter.rs line 7). -/
inductive TransitionError where
  | mk : TransitionError
deriving DecidableEq, Repr

instance {ε α : Type} [DecidableEq ε] [DecidableEq α] : DecidableEq (Except ε α)
  | Except.error a, Except.error b =>
    if h : a = b then isTrue (by rw [h])
    else isFalse (fun hc => h (Except.error.inj hc))
  | Except.error _, Except.ok _ => isFalse (fun hc => Except.noConfusion hc)
  | Except.ok _, Except.error _ => isFalse (fun hc => Except.noConfusion hc)
  | Except.ok a, Except.ok b =>
    if h : a = b then isTrue (by rw [h])
    else isFalse (fun hc => h (Except.ok.inj hc))

/-- `CurrentState<C> = (State<C>, Covariance<C>)` from `alias.rs`. -/
abbrev CurrentState (n : ℕ) := Vec n × Mat n n

/-- `Observation<R> = (Measurement<R>, MeasurementNoise<R>)` from `alias.rs`. -/
abbrev Observation (m : ℕ) := Vec m × Mat m m

/-- `struct KalmanFilter<const TC, const MR, const BR>` (filter.rs lines 9-17).
The process-noise matrix is stored in the field the source names
`measurement_noise` (of type `TransitionNoise<TC>`). -/
structure KalmanFilter (TC MR BR : ℕ) where
  transition_model : Mat TC TC
  measurement_model : Mat MR TC
  measurement_noise : Mat TC TC
  state : Vec TC
  covariance : Mat TC TC
  input_model : Mat TC BR

/-- `nalgebra`'s `SMatrix::try_inverse`: `some` of the inverse exactly when the
matrix is invertible, i.e. when its determinant is nonzero. -/
def try_inverse {n : ℕ} (A : Mat n n) : Option (Mat n n) :=
  if A.det = 0 then none else some (A.det⁻¹ • A.adjugate)

/-- `KalmanFilter::new` (filter.rs lines 33-46). -/
def KalmanFilter.new {TC MR BR : ℕ} (transition_model : Mat TC TC)
    (measurement_model : Mat MR TC) (measurement_noise : Mat TC TC) :
    KalmanFilter TC MR BR :=
  ⟨transition_model, measurement_model, measurement_noise, 0, 1, 0⟩

/-- `KalmanFilter::with_state` (filter.rs lines 48-52). -/
def KalmanFilter.with_state {TC MR BR : ℕ} (f : KalmanFilter TC MR BR)
    (state : Vec TC) (covariance : Mat TC TC) : KalmanFilter TC MR BR :=
  ⟨f.transition_model, f.measurement_model, f.measurement_noise, state,
    covariance, f.input_model⟩

/-- `KalmanFilter::with_input_model` (filter.rs lines 54-57). -/
def KalmanFilter.with_input_model {TC MR BR : ℕ} (f : KalmanFilter TC MR BR)
    (model : Mat TC BR) : KalmanFilter TC MR BR :=
  ⟨f.transition_model, f.measurement_model, f.measurement_noise, f.state,
    f.covariance, model⟩

/-- `KalmanFilter::predict` (filter.rs lines 78-95).  Note the source uses
`+=`: the scaled-transition terms are ADDED to the incoming state and
covariance (`state += transition * state + ...`,
`covariance += transition * covariance * transitionᵀ + noise`). -/
def KalmanFilter.predict {TC MR BR : ℕ} (f : KalmanFilter TC MR BR)
    (sc : CurrentState TC) (dt : ℚ) (u : Option (Vec BR)) :
    Except TransitionError (CurrentState TC) :=
  if dt ≤ 0 then
    Except.error TransitionError.mk
  else
    let transition := dt • f.transition_model
    let state := sc.1 + (transition.mulVec sc.1 + f.input_model.mulVec (u.getD 0))
    let covariance :=
      sc.2 + (transition * sc.2 * transition.transpose + f.measurement_noise)
    Except.ok (state, covariance)

/-- `KalmanFilter::update` (filter.rs lines 97-119). -/
def KalmanFilter.update {TC MR BR : ℕ} (f : KalmanFilter TC MR BR)
    (sc : CurrentState TC) (obs : Observation MR) :
    Except TransitionError (CurrentState TC) :=
  let innovation := obs.1 - f.measurement_model.mulVec sc.1
  let innovation_matrix :=
    f.measurement_model * sc.2 * f.measurement_model.transpose + obs.2
  match try_inverse innovation_matrix with
  | none => Except.error TransitionError.mk
  | some inv =>
    let gain := sc.2 * f.measurement_model.transpose * inv
    let new_state := sc.1 + gain.mulVec innovation
    let new_covariance := (1 - gain * f.measurement_model) * sc.2
    Except.ok (new_state, new_covariance)

/-- `KalmanFilter::step` (filter.rs lines 59-76).  `&mut self` is modelled by
returning the updated filter next to the `Result`; the `?` early returns
leave the filter unchanged. -/
def KalmanFilter.step {TC MR BR : ℕ} (f : KalmanFilter TC MR BR) (dt : ℚ)
    (observation : Observation MR) (u : Option (Vec BR)) :
    Except TransitionError (CurrentState TC) × KalmanFilter TC MR BR :=
  match f.predict (f.state, f.covariance) dt u with
  | Except.error e => (Except.error e, f)
  | Except.ok predicted =>
    match f.update predicted observation with
    | Except.error e => (Except.error e, f)
    | Except.ok (state, cov) =>
      (Except.ok (state, cov),
        ⟨f.transition_model, f.measurement_model, f.measurement_noise, state,
          cov, f.input_model⟩)

/-- The filter of the source's own `predict_state` test (filter.rs lines
128-151): 1-D, transition model `2·I`, measurement model `I`, process noise
`2·I`.  This is Scenario A of the specification. -/
def scenarioA : KalmanFilter 1 1 1 :=
  KalmanFilter.new !![2] !![1] !![2]

/-- The filter of the source's own `update_state` test (filter.rs lines
183-218): 2-D state, 1-D measurement, transition model `3·I`, measurement
model `[1, 1]`, process noise `2·I`.  This is Scenario C of the
specification. -/
def scenarioC : KalmanFilter 2 1 1 :=
  KalmanFilter.new !![3, 0; 0, 3] !![1, 1] !![2, 0; 0, 2]

/-- `predict` and `update` take the filter by shared reference (`&self`,
filter.rs lines 79 and 98): a call returns its result next to the filter,
which is unchanged. -/
def KalmanFilter.predict_call {TC MR BR : ℕ} (f : KalmanFilter TC MR BR)
    (sc : CurrentState TC) (dt : ℚ) (u : Option (Vec BR)) :
    Except TransitionError (CurrentState TC) × KalmanFilter TC MR BR :=
  (f.predict sc dt u, f)

/-- Calling convention of `update` (`&self`, filter.rs line 98), as for
`predict_call`. -/
def KalmanFilter.update_call {TC MR BR : ℕ} (f : KalmanFilter TC MR BR)
    (sc : CurrentState TC) (obs : Observation MR) :
    Except TransitionError (CurrentState TC) × KalmanFilter TC MR BR :=
  (f.update sc obs, f)

/-- A 1-D filter sharing `scenarioA`'s measurement model but differing from it
in the transition model, the stored noise matrix, the state, the covariance
and the input model.  Used to exhibit that `update` reads none of those. -/
def otherFilterA : KalmanFilter 1 1 1 :=
  ((KalmanFilter.new !![7] !![1] !![5]).with_state ![9] !![4]).with_input_model !![8]

/-- A 2-D filter whose measurement model is the zero matrix (Scenario D). -/
def zeroModelFilter : KalmanFilter 2 1 1 :=
  KalmanFilter.new 1 0 1

/-- Unfolding of `update`: the innovation covariance, and the state/covariance
formulas applied when it is invertible. -/
theorem update_eq_match {TC MR BR : ℕ} (f : KalmanFilter TC MR BR)
    (x : Vec TC) (P : Mat TC TC) (z : Vec MR) (R : Mat MR MR) :
    f.update (x, P) (z, R) =
      match try_inverse
          (f.measurement_model * P * f.measurement_model.transpose + R) with
      | none => Except.error TransitionError.mk
      | some inv =>
        Except.ok
          (x + (P * f.measurement_model.transpose * inv).mulVec
            (z - f.measurement_model.mulVec x),
           (1 - (P * f.measurement_model.transpose * inv) * f.measurement_model)
             * P) :=
  rfl

/-- `try_inverse` on a `1 × 1` matrix. -/
theorem try_inverse_fin_one (a : ℚ) :
    try_inverse !![a] = if a = 0 then none else some !![a⁻¹] := by
  by_cases h : a = 0
  · simp [try_inverse, Matrix.det_fin_one, h]
  · simp only [try_inverse, Matrix.det_fin_one, Matrix.adjugate_fin_one]
    rw [if_neg (by simpa using h), if_neg h]
    refine congrArg some ?_
    ext i j
    fin_cases i
    fin_cases j
    simp [Matrix.one_apply]

/-- Unfolding of `predict` for a strictly positive `dt` (filter.rs lines
88-94): the scaled-transition terms are added to the incoming pair. -/
theorem predict_eq_of_pos {TC MR BR : ℕ} (f : KalmanFilter TC MR BR)
    (x : Vec TC) (P : Mat TC TC) (dt : ℚ) (u : Option (Vec BR)) (h : 0 < dt) :
    f.predict (x, P) dt u =
      Except.ok
        (x + ((dt • f.transition_model).mulVec x + f.input_model.mulVec (u.getD 0)),
         P + ((dt • f.transition_model) * P * (dt • f.transition_model).transpose
           + f.measurement_noise)) := by
  unfold KalmanFilter.predict
  rw [if_neg (not_le.mpr h)]

/-- Evaluation of `predict` on the data of the source's `predict_state` test
(Scenario A): the result is state `3` and covariance `7`. -/
theorem predict_scenarioA_eval :
    scenarioA.predict (![1], !![1]) 1 none = Except.ok (![3], !![7]) := by
  rw [predict_eq_of_pos scenarioA ![1] !![1] 1 none one_pos]
  refine congrArg Except.ok ?_
  rw [Prod.mk.injEq]
  constructor
  · funext i
    fin_cases i
    norm_num [scenarioA, KalmanFilter.new, Matrix.mulVec, Matrix.dotProduct,
      Fin.sum_univ_succ, Matrix.vecHead, Matrix.vecTail, Matrix.smul_apply]
  · ext i j
    fin_cases i
    fin_cases j
    norm_num [scenarioA, KalmanFilter.new, Matrix.mul_apply, Fin.sum_univ_succ,
      Matrix.transpose_apply, Matrix.smul_apply, Matrix.vecHead, Matrix.vecTail]

/-- The innovation covariance of Scenario C is the `1 × 1` matrix `4`. -/
theorem scenarioC_innovation_matrix :
    scenarioC.measurement_model * (1 : Mat 2 2) * scenarioC.measurement_model.transpose
      + !![2] = !![4] := by
  ext i j
  fin_cases i
  fin_cases j
  norm_num [scenarioC, KalmanFilter.new, Matrix.mul_apply, Fin.sum_univ_succ,
    Matrix.one_apply, Matrix.transpose_apply, Matrix.vecHead, Matrix.vecTail]

/-- Evaluation of `update` on the data of the source's `update_state` test
(Scenario C). -/
theorem update_scenarioC_eval :
    scenarioC.update (![1, 2], 1) (![2], !![2]) =
      Except.ok (![3/4, 7/4], !![3/4, -1/4; -1/4, 3/4]) := by
  rw [update_eq_match scenarioC ![1, 2] 1 ![2] !![2], scenarioC_innovation_matrix,
    try_inverse_fin_one, if_neg (by norm_num : (4 : ℚ) ≠ 0)]
  refine congrArg Except.ok ?_
  rw [Prod.mk.injEq]
  constructor
  · funext i
    fin_cases i <;>
      norm_num [scenarioC, KalmanFilter.new, Matrix.mulVec, Matrix.dotProduct,
        Matrix.mul_apply, Fin.sum_univ_succ, Matrix.one_apply,
        Matrix.transpose_apply, Matrix.vecHead, Matrix.vecTail]
  · ext i j
    fin_cases i <;> fin_cases j <;>
      norm_num [scenarioC, KalmanFilter.new, Matrix.mul_apply, Fin.sum_univ_succ,
        Matrix.one_apply, Matrix.sub_apply, Matrix.transpose_apply,
        Matrix.vecHead, Matrix.vecTail]

/-- Claim C1: the specification's REPLACE-form prediction
(`newState = F_dt * x + B * u`, `newCovariance = F_dt * P * F_dtᵀ + Q`) does
not hold of the code.  The source (filter.rs lines 90 and 92) uses `+=`, so at
Scenario A it returns state `3` and covariance `7` instead of the REPLACE-form
state `2` and covariance `6`; this contradicts the source's own
`predict_state` test (filter.rs lines 142-143). -/
theorem predict_not_replace_form :
    scenarioA.predict (![1], !![1]) 1 none = Except.ok (![3], !![7]) ∧
    scenarioA.predict (![1], !![1]) 1 none ≠
      Except.ok (((1:ℚ) • scenarioA.transition_model).mulVec ![1],
        ((1:ℚ) • scenarioA.transition_model) * !![1] *
          ((1:ℚ) • scenarioA.transition_model).transpose
          + scenarioA.measurement_noise) := by
  refine ⟨predict_scenarioA_eval, ?_⟩
  rw [predict_scenarioA_eval]
  intro hc
  have h1 : (![3] : Vec 1) = ((1:ℚ) • scenarioA.transition_model).mulVec ![1] :=
    congrArg Prod.fst (Except.ok.inj hc)
  have h2 := congrFun h1 0
  norm_num [scenarioA, KalmanFilter.new, Matrix.mulVec, Matrix.dotProduct,
    Fin.sum_univ_succ, Matrix.smul_apply, Matrix.vecHead, Matrix.vecTail] at h2

/-- Claim C3: at Scenario A the code returns state `3` and covariance `7`,
not the claimed state `2` and covariance `6` (which the source's own
`predict_state` test asserts, filter.rs lines 142-143). -/
theorem predict_scenarioA_values :
    scenarioA.predict (![1], !![1]) 1 none = Except.ok (![3], !![7]) ∧
    scenarioA.predict (![1], !![1]) 1 none ≠ Except.ok (![2], !![6]) := by
  refine ⟨predict_scenarioA_eval, ?_⟩
  rw [predict_scenarioA_eval]
  intro hc
  have h1 : (![3] : Vec 1) = ![2] := congrArg Prod.fst (Except.ok.inj hc)
  have h2 := congrFun h1 0
  norm_num at h2

/-- Claim C6: for every filter, every state/covariance pair, every optional
control and every `dt ≤ 0`, `predict` returns `TransitionError`
(filter.rs lines 84-86). -/
theorem predict_nonpos_dt_error {TC MR BR : ℕ} (f : KalmanFilter TC MR BR)
    (sc : CurrentState TC) (dt : ℚ) (u : Option (Vec BR)) (h : dt ≤ 0) :
    f.predict sc dt u = Except.error TransitionError.mk := by
  unfold KalmanFilter.predict
  rw [if_pos h]

/-- Witness for claim C6 at `dt = 0` on the Scenario A filter. -/
theorem predict_nonpos_dt_error_witness :
    (0:ℚ) ≤ 0 ∧
      scenarioA.predict (![1], !![1]) 0 none = Except.error TransitionError.mk :=
  ⟨le_refl 0, predict_nonpos_dt_error scenarioA (![1], !![1]) 0 none (le_refl 0)⟩

/-- Claim C8: `predict` and `update` are deterministic (equal inputs give
equal outputs) and side-effect-free (the filter coming out of a call is the
filter that went in). -/
theorem predict_update_deterministic_pure {TC MR BR : ℕ}
    (f g : KalmanFilter TC MR BR) (sc sc' : CurrentState TC) (dt dt' : ℚ)
    (u u' : Option (Vec BR)) (obs obs' : Observation MR)
    (hf : f = g) (hsc : sc = sc') (hdt : dt = dt') (hu : u = u')
    (hobs : obs = obs') :
    f.predict sc dt u = g.predict sc' dt' u' ∧
    f.update sc obs = g.update sc' obs' ∧
    (f.predict_call sc dt u).2 = f ∧
    (f.update_call sc obs).2 = f := by
  subst hf hsc hdt hu hobs
  exact ⟨rfl, rfl, rfl, rfl⟩

/-- Witness for claim C8 on concrete Scenario A data. -/
theorem predict_update_deterministic_pure_witness :
    scenarioA.predict (![1], !![1]) 1 none = scenarioA.predict (![1], !![1]) 1 none ∧
    scenarioA.update (![1], !![1]) (![2], !![3]) =
      scenarioA.update (![1], !![1]) (![2], !![3]) ∧
    (scenarioA.predict_call (![1], !![1]) 1 none).2 = scenarioA ∧
    (scenarioA.update_call (![1], !![1]) (![2], !![3])).2 = scenarioA :=
  predict_update_deterministic_pure scenarioA scenarioA (![1], !![1]) (![1], !![1])
    1 1 none none (![2], !![3]) (![2], !![3]) rfl rfl rfl rfl rfl

/-- Claim C9: `new` stores the three construction matrices and defaults the
state to the zero vector, the covariance to the identity matrix and the
control-input model to the zero matrix (filter.rs lines 33-46). -/
theorem new_stores_models_and_defaults {TC MR BR : ℕ} (tm : Mat TC TC)
    (mm : Mat MR TC) (pn : Mat TC TC) :
    (KalmanFilter.new tm mm pn : KalmanFilter TC MR BR).transition_model = tm ∧
    (KalmanFilter.new tm mm pn : KalmanFilter TC MR BR).measurement_model = mm ∧
    (KalmanFilter.new tm mm pn : KalmanFilter TC MR BR).measurement_noise = pn ∧
    (KalmanFilter.new tm mm pn : KalmanFilter TC MR BR).state = 0 ∧
    (KalmanFilter.new tm mm pn : KalmanFilter TC MR BR).covariance = 1 ∧
    (KalmanFilter.new tm mm pn : KalmanFilter TC MR BR).input_model = 0 :=
  ⟨rfl, rfl, rfl, rfl, rfl, rfl⟩

/-- Claim C10: `update` reads only the filter's measurement model besides its
explicit arguments; two filters agreeing on `measurement_model` produce the
same outcome however much they differ in the transition model, the stored
noise field, the input model or the stored state and covariance. -/
theorem update_reads_only_measurement_model {TC MR BR : ℕ}
    (f g : KalmanFilter TC MR BR) (sc : CurrentState TC) (obs : Observation MR)
    (h : f.measurement_model = g.measurement_model) :
    f.update sc obs = g.update sc obs := by
  unfold KalmanFilter.update
  rw [h]

/-- Witness for claim C10: `otherFilterA` and `scenarioA` differ in every
field except the measurement model, yet `update` agrees on them. -/
theorem update_reads_only_measurement_model_witness :
    otherFilterA.measurement_model = scenarioA.measurement_model ∧
    otherFilterA.update (![1], !![1]) (![2], !![3]) =
      scenarioA.update (![1], !![1]) (![2], !![3]) :=
  ⟨rfl, update_reads_only_measurement_model otherFilterA scenarioA
    (![1], !![1]) (![2], !![3]) rfl⟩

/-- Characteristic polynomial of Scenario C's output covariance: its
eigenvalues are `1` and `1/2`. -/
theorem covC_char_poly (x : ℚ) :
    (x • (1 : Mat 2 2) - !![3/4, -1/4; -1/4, 3/4]).det = (x - 1) * (x - 1/2) := by
  rw [Matrix.det_fin_two]
  norm_num [Matrix.smul_apply, Matrix.one_apply, Matrix.sub_apply]
  ring

/-- Claim C2: `step` returns exactly predict-then-update applied to the
filter's current pair, and the commit is atomic: the stored pair is
overwritten only when both stages succeed; on failure of either stage the
filter is exactly what it was before the call (filter.rs lines 59-76). -/
theorem step_eq_predict_then_update {TC MR BR : ℕ} (f : KalmanFilter TC MR BR)
    (dt : ℚ) (obs : Observation MR) (u : Option (Vec BR)) :
    (f.step dt obs u).1 =
      Except.bind (f.predict (f.state, f.covariance) dt u)
        (fun p => f.update p obs) ∧
    (f.step dt obs u).2 =
      (match (f.step dt obs u).1 with
       | Except.error _ => f
       | Except.ok (s, c) =>
         KalmanFilter.mk f.transition_model f.measurement_model
           f.measurement_noise s c f.input_model) := by
  unfold KalmanFilter.step
  cases hp : f.predict (f.state, f.covariance) dt u with
  | error e => refine ⟨?_, ?_⟩ <;> simp [Except.bind]
  | ok p =>
    cases hu : f.update p obs with
    | error e => refine ⟨?_, ?_⟩ <;> simp [Except.bind, hu]
    | ok sc =>
      obtain ⟨s, c⟩ := sc
      refine ⟨?_, ?_⟩ <;> simp [Except.bind, hu]

/-- Claim C4: `update` fails with `TransitionError` exactly when the
innovation covariance `S = H * P * Hᵀ + R` is singular; when `S` is
invertible it returns `Except.ok` with a well-defined pair; and with both the
measurement model and the measurement noise zero (in a nonzero measurement
dimension) `S` is singular, so `update` fails (filter.rs lines 104-111). -/
theorem update_error_iff_singular {TC MR BR : ℕ} (f : KalmanFilter TC MR BR)
    (sc : CurrentState TC) (obs : Observation MR) :
    (f.update sc obs = Except.error TransitionError.mk ↔
      (f.measurement_model * sc.2 * f.measurement_model.transpose + obs.2).det = 0) ∧
    ((f.measurement_model * sc.2 * f.measurement_model.transpose + obs.2).det ≠ 0 →
      ∃ s c, f.update sc obs = Except.ok (s, c)) ∧
    (0 < MR → f.measurement_model = 0 → obs.2 = 0 →
      f.update sc obs = Except.error TransitionError.mk) := by
  obtain ⟨x, P⟩ := sc
  obtain ⟨z, R⟩ := obs
  dsimp only
  by_cases hdet : (f.measurement_model * P * f.measurement_model.transpose + R).det = 0
  · have hnone :
        try_inverse (f.measurement_model * P * f.measurement_model.transpose + R)
          = none := by
      rw [try_inverse, if_pos hdet]
    rw [update_eq_match, hnone]
    exact ⟨⟨fun _ => hdet, fun _ => rfl⟩, fun hc => absurd hdet hc, fun _ _ _ => rfl⟩
  · have hsome :
        try_inverse (f.measurement_model * P * f.measurement_model.transpose + R)
          = some ((f.measurement_model * P * f.measurement_model.transpose + R).det⁻¹
              • (f.measurement_model * P * f.measurement_model.transpose + R).adjugate) := by
      rw [try_inverse, if_neg hdet]
    rw [update_eq_match, hsome]
    refine ⟨⟨fun hc => Except.noConfusion hc, fun h => absurd h hdet⟩,
      fun _ => ⟨_, _, rfl⟩, fun hMR hH hR => ?_⟩
    refine absurd ?_ hdet
    rw [hH, hR]
    have hne : Nonempty (Fin MR) := Fin.pos_iff_nonempty.mp hMR
    simp [Matrix.det_zero hne]

/-- Witness for claim C4: on Scenario C the innovation covariance is `4`,
invertible, and `update` succeeds; on a filter with zero measurement model
and a zero-noise observation `update` fails. -/
theorem update_error_iff_singular_witness :
    ((scenarioC.measurement_model * ((![1, 2], (1 : Mat 2 2)) : CurrentState 2).2
        * scenarioC.measurement_model.transpose
        + ((![2], !![2]) : Observation 1).2).det ≠ 0 ∧
      (∃ s c, scenarioC.update (![1, 2], 1) (![2], !![2]) = Except.ok (s, c))) ∧
    (0 < 1 ∧
      zeroModelFilter.update (![1, 2], 1) (![2], 0)
        = Except.error TransitionError.mk) := by
  have hdet : (scenarioC.measurement_model * ((![1, 2], (1 : Mat 2 2)) : CurrentState 2).2
      * scenarioC.measurement_model.transpose
      + ((![2], !![2]) : Observation 1).2).det ≠ 0 := by
    have h4 : (scenarioC.measurement_model * ((![1, 2], (1 : Mat 2 2)) : CurrentState 2).2
        * scenarioC.measurement_model.transpose
        + ((![2], !![2]) : Observation 1).2) = !![4] := scenarioC_innovation_matrix
    rw [h4, Matrix.det_fin_one]
    norm_num
  exact ⟨⟨hdet,
      (update_error_iff_singular scenarioC (![1, 2], 1) (![2], !![2])).2.1 hdet⟩,
    Nat.one_pos,
      (update_error_iff_singular zeroModelFilter (![1, 2], 1) (![2], 0)).2.2
        Nat.one_pos rfl rfl⟩

/-- Claim C5: at Scenario C, `update` succeeds with state `[3/4, 7/4]` and
covariance `[[3/4, -1/4], [-1/4, 3/4]]`; the innovation covariance `4` has
inverse `1/4`, the returned pair equals `x + K·y` and `(I - K·H)·P` with
`K = P·Hᵀ·S⁻¹` and `y = z - H·x`; and every eigenvalue of the returned
covariance is strictly positive (its characteristic polynomial is
`(x - 1)(x - 1/2)`). -/
theorem update_scenarioC_correct :
    scenarioC.update (![1, 2], 1) (![2], !![2]) =
      Except.ok (![3/4, 7/4], !![3/4, -1/4; -1/4, 3/4]) ∧
    try_inverse (scenarioC.measurement_model * (1 : Mat 2 2)
        * scenarioC.measurement_model.transpose + !![2]) = some !![1/4] ∧
    (![3/4, 7/4] : Vec 2) =
      ![1, 2] + ((1 : Mat 2 2) * scenarioC.measurement_model.transpose
        * (!![1/4] : Mat 1 1)).mulVec
          (![2] - scenarioC.measurement_model.mulVec ![1, 2]) ∧
    (!![3/4, -1/4; -1/4, 3/4] : Mat 2 2) =
      (1 - ((1 : Mat 2 2) * scenarioC.measurement_model.transpose
        * (!![1/4] : Mat 1 1)) * scenarioC.measurement_model) * (1 : Mat 2 2) ∧
    (∀ x : ℚ, (x • (1 : Mat 2 2) - !![3/4, -1/4; -1/4, 3/4]).det
      = (x - 1) * (x - 1/2)) ∧
    (∀ x : ℚ, (x • (1 : Mat 2 2) - !![3/4, -1/4; -1/4, 3/4]).det = 0 → 0 < x) := by
  refine ⟨update_scenarioC_eval, ?_, ?_, ?_, covC_char_poly, ?_⟩
  · rw [scenarioC_innovation_matrix, try_inverse_fin_one,
      if_neg (by norm_num : (4 : ℚ) ≠ 0)]
    refine congrArg some ?_
    ext i j
    fin_cases i
    fin_cases j
    norm_num
  · funext i
    fin_cases i <;>
      norm_num [scenarioC, KalmanFilter.new, Matrix.mulVec, Matrix.dotProduct,
        Matrix.mul_apply, Fin.sum_univ_succ, Matrix.one_apply,
        Matrix.transpose_apply, Matrix.vecHead, Matrix.vecTail]
  · ext i j
    fin_cases i <;> fin_cases j <;>
      norm_num [scenarioC, KalmanFilter.new, Matrix.mul_apply, Fin.sum_univ_succ,
        Matrix.one_apply, Matrix.sub_apply, Matrix.transpose_apply,
        Matrix.vecHead, Matrix.vecTail]
  · intro x hx
    rw [covC_char_poly] at hx
    rcases mul_eq_zero.mp hx with h | h
    · rw [sub_eq_zero.mp h]
      norm_num
    · rw [sub_eq_zero.mp h]
      norm_num

/-- Witness for claim C5: `1` is an eigenvalue of the returned covariance
and the theorem yields its positivity. -/
theorem update_scenarioC_correct_witness :
    ((1 : ℚ) • (1 : Mat 2 2) - !![3/4, -1/4; -1/4, 3/4]).det = 0 ∧ (0 : ℚ) < 1 := by
  have hdet : ((1 : ℚ) • (1 : Mat 2 2) - !![3/4, -1/4; -1/4, 3/4]).det = 0 := by
    rw [covC_char_poly 1]
    norm_num
  exact ⟨hdet, update_scenarioC_correct.2.2.2.2.2 1 hdet⟩

/-- Claim C7: for `dt > 0`, if the input covariance and the filter's stored
process-noise matrix are symmetric then the covariance returned by `predict`
is symmetric, for any transition model and control (filter.rs line 92). -/
theorem predict_covariance_symm {TC MR BR : ℕ} (f : KalmanFilter TC MR BR)
    (x : Vec TC) (P : Mat TC TC) (dt : ℚ) (u : Option (Vec BR))
    (s : Vec TC) (Q : Mat TC TC) (hdt : 0 < dt) (hP : P.transpose = P)
    (hN : f.measurement_noise.transpose = f.measurement_noise)
    (hok : f.predict (x, P) dt u = Except.ok (s, Q)) :
    Q.transpose = Q := by
  rw [predict_eq_of_pos f x P dt u hdt] at hok
  have hQ : Q = P + ((dt • f.transition_model) * P
      * (dt • f.transition_model).transpose + f.measurement_noise) :=
    (congrArg Prod.snd (Except.ok.inj hok)).symm
  subst hQ
  simp [Matrix.transpose_add, Matrix.transpose_mul, Matrix.transpose_transpose,
    hP, hN, Matrix.mul_assoc]

/-- Witness for claim C7 on Scenario A: covariance `1` and noise `2` are
symmetric, `predict` returns covariance `7`, and it is symmetric. -/
theorem predict_covariance_symm_witness :
    (0 : ℚ) < 1 ∧ (!![(1:ℚ)]).transpose = !![(1:ℚ)] ∧
    scenarioA.measurement_noise.transpose = scenarioA.measurement_noise ∧
    (!![(7:ℚ)]).transpose = !![(7:ℚ)] := by
  have hP : (!![(1:ℚ)]).transpose = !![(1:ℚ)] := by
    ext i j
    fin_cases i
    fin_cases j
    norm_num [Matrix.transpose_apply]
  have hN : scenarioA.measurement_noise.transpose = scenarioA.measurement_noise := by
    ext i j
    fin_cases i
    fin_cases j
    norm_num [scenarioA, KalmanFilter.new, Matrix.transpose_apply]
  exact ⟨one_pos, hP, hN,
    predict_covariance_symm scenarioA ![1] !![1] 1 none ![3] !![7] one_pos hP hN
      predict_scenarioA_eval⟩

end RsFilter
